import Mathlib

/-! Gesture HAL interface (`include/hardware/gestures.h`)

A shallow embedding of the gesture hardware-abstraction header: its
preprocessor constants, its record declarations (as first-order descriptions of
C types), and its four inline convenience functions (as state-passing
functions over a small machine with indirect calls).
-/

namespace Gestures

/-! ## Preprocessor constants -/

/-- `#define GESTURE_HARDWARE_MODULE_ID "gestures"` -/
def GESTURE_HARDWARE_MODULE_ID : String := "gestures"

/-- `#define GESTURE_HARDWARE_CONTROL "control"` -/
def GESTURE_HARDWARE_CONTROL : String := "control"

/-- `#define GESTURE_HARDWARE_DATA "data"` -/
def GESTURE_HARDWARE_DATA : String := "data"

/-- `#define GESTURE_HANDLE_BASE 0` -/
def GESTURE_HANDLE_BASE : Int := 0

/-- `#define GESTURE_HANDLE_BITS 8` -/
def GESTURE_HANDLE_BITS : Nat := 8

/-- `#define GESTURE_HANDLE_COUNT (1<<GESTURE_HANDLE_BITS)` -/
def GESTURE_HANDLE_COUNT : Int := ((1 <<< GESTURE_HANDLE_BITS : Nat) : Int)

/-- `#define GESTURE_TYPE_DOUBLETAP 1` -/
def GESTURE_TYPE_DOUBLETAP : Int := 1

/-- `#define GESTURE_TYPE_SINGLETAP 2` -/
def GESTURE_TYPE_SINGLETAP : Int := 2

/-- `#define GESTURE_TYPE_OFFGLASS 13` -/
def GESTURE_TYPE_OFFGLASS : Int := 13

/-- `#define GESTURE_IC_TYPE_OFFGLASS 16` -/
def GESTURE_IC_TYPE_OFFGLASS : Int := 16

/-! ## Record declarations as C type descriptions -/

/-- The scalar types the header's records are built from. `int` is the plain C
`int` of the `gesture` member. -/
inductive Scalar where
  | int
  | float
  | int8_t
  | uint8_t
  | int64_t
  | uint32_t
  deriving DecidableEq, Repr

/-- Width in bytes of a scalar (`int` is 32 bits on every Android ABI). -/
def Scalar.size : Scalar → Nat
  | .int => 4
  | .float => 4
  | .int8_t => 1
  | .uint8_t => 1
  | .int64_t => 8
  | .uint32_t => 4

/-- Whether a scalar is a signed integer type. -/
def Scalar.signedInt : Scalar → Bool
  | .int => true
  | .int8_t => true
  | .int64_t => true
  | _ => false

/-- Whether a scalar is an unsigned integer type. -/
def Scalar.unsignedInt : Scalar → Bool
  | .uint8_t => true
  | .uint32_t => true
  | _ => false

mutual
/-- A C object type: a scalar, a fixed-length array, or a struct. -/
inductive CType where
  | scalar (s : Scalar)
  | array (elem : CType) (count : Nat)
  | struct (members : Members)
/-- The member list of a struct, in declaration order. -/
inductive Members where
  | nil
  | cons (name : String) (type : CType) (rest : Members)
end

/-- The `gestures_vec_t` declaration:
`float v[3]; int8_t status; uint8_t reserved[3];` -/
def gestures_vec_t : CType :=
  .struct
    (.cons "v" (.array (.scalar .float) 3)
    (.cons "status" (.scalar .int8_t)
    (.cons "reserved" (.array (.scalar .uint8_t) 3)
    .nil)))

/-- The `gestures_data_t` declaration:
`int gesture; gestures_vec_t gesturedata; int64_t time; uint32_t reserved;` -/
def gestures_data_t : CType :=
  .struct
    (.cons "gesture" (.scalar .int)
    (.cons "gesturedata" gestures_vec_t
    (.cons "time" (.scalar .int64_t)
    (.cons "reserved" (.scalar .uint32_t)
    .nil))))

/-- One declared leaf field: its member name, element type and element count
(1 for a member that is not an array). -/
structure Field where
  name : String
  elem : Scalar
  count : Nat
  deriving DecidableEq, Repr

/-- Declared width of a leaf field in bytes. -/
def Field.width (f : Field) : Nat := f.count * f.elem.size

mutual
/-- The leaf fields of a type in declaration order, nested structs opened up.
The argument `name` is the member name under which the type is declared and
`mult` the number of array elements collected so far. -/
def CType.fields : CType → String → Nat → List Field
  | .scalar s, name, mult => [⟨name, s, mult⟩]
  | .array e n, name, mult => e.fields name (mult * n)
  | .struct ms, _, _ => ms.fields
/-- The leaf fields of a member list in declaration order. -/
def Members.fields : Members → List Field
  | .nil => []
  | .cons name t rest => t.fields name 1 ++ rest.fields
end

/-- Round `off` up to the next multiple of `a`. -/
def align_up (off a : Nat) : Nat := (off + a - 1) / a * a

mutual
/-- Natural alignment: a scalar is aligned to its own size, an array to its
element, a struct to its most aligned member. -/
def CType.alignof : CType → Nat
  | .scalar s => s.size
  | .array e _ => e.alignof
  | .struct ms => ms.alignof
/-- Alignment demanded by a member list. -/
def Members.alignof : Members → Nat
  | .nil => 1
  | .cons _ t rest => max t.alignof rest.alignof
end

mutual
/-- Size in bytes under natural alignment, tail padding included. -/
def CType.sizeof : CType → Nat
  | .scalar s => s.size
  | .array e n => n * e.sizeof
  | .struct ms => align_up (ms.endOffset 0) ms.alignof
/-- Offset just past the last member when the members are placed one after the
other from offset `off`, each at the next multiple of its alignment. -/
def Members.endOffset : Members → Nat → Nat
  | .nil, off => off
  | .cons _ t rest, off => rest.endOffset (align_up off t.alignof + t.sizeof)
end

/-- Offsets of the direct members of a member list placed from offset `off`
under natural alignment. -/
def Members.offsets : Members → Nat → List (String × Nat)
  | .nil, _ => []
  | .cons name t rest, off =>
    (name, align_up off t.alignof) ::
      rest.offsets (align_up off t.alignof + t.sizeof)

/-- The direct members of a struct type (none for a non-struct). -/
def CType.members : CType → Members
  | .struct ms => ms
  | _ => .nil

/-- Sum of the declared widths of the leaf fields: the bytes the declaration
accounts for. -/
def CType.declaredWidth (t : CType) : Nat :=
  ((t.fields "" 1).map Field.width).sum

/-- Bytes of the in-memory object that belong to no declared field. -/
def CType.paddingBytes (t : CType) : Nat := t.sizeof - t.declaredWidth

/-! ## Handles and the documented results of `poll` -/

/-- The handle range `[GESTURE_HANDLE_BASE, GESTURE_HANDLE_BASE + GESTURE_HANDLE_COUNT)`. -/
def in_handle_range (h : Int) : Prop :=
  GESTURE_HANDLE_BASE ≤ h ∧ h < GESTURE_HANDLE_BASE + GESTURE_HANDLE_COUNT

instance (h : Int) : Decidable (in_handle_range h) := by
  unfold in_handle_range; infer_instance

/-- The requirement on `gesture_t.handle`: "The value of the handle must be 8 bits
in this version of the API." -/
def handle_fits (h : Int) : Prop := 0 ≤ h ∧ h < 2 ^ GESTURE_HANDLE_BITS

instance (h : Int) : Decidable (handle_fits h) := by
  unfold handle_fits; infer_instance

/-- The value `poll` documents for a wake: "0x7FFFFFFF when
sensors_control_device_t.wake() is called". -/
def POLL_WOKEN : Int := 0x7FFFFFFF

/-- The outcomes the comment on `poll` lists: the handle of the sensor whose data
is returned, a wake, or an error with its errno. -/
inductive PollOutcome where
  | event (handle : Int)
  | woken
  | error (errno : Nat)
  deriving DecidableEq, Repr

/-- The return value the comment on `poll` documents for each outcome: "sensor
handle for the returned data, 0x7FFFFFFF when sensors_control_device_t.wake() is
called and -errno on error". -/
def poll_return : PollOutcome → Int
  | .event handle => handle
  | .woken => POLL_WOKEN
  | .error errno => -(errno : Int)

/-- An outcome `poll` may report: an event carries a handle of the handle range,
an error a positive errno. -/
def PollOutcome.wellFormed : PollOutcome → Prop
  | .event handle => in_handle_range handle
  | .woken => True
  | .error errno => 0 < errno

/-- Return values that report an event: the handles of the handle range. -/
def poll_is_event (r : Int) : Prop := in_handle_range r

/-- Return values that report a wake. -/
def poll_is_woken (r : Int) : Prop := r = POLL_WOKEN

/-- Return values that report an error: "-errno on error". -/
def poll_is_error (r : Int) : Prop := r < 0

instance (r : Int) : Decidable (poll_is_event r) := by
  unfold poll_is_event; infer_instance

instance (r : Int) : Decidable (poll_is_woken r) := by
  unfold poll_is_woken; infer_instance

instance (r : Int) : Decidable (poll_is_error r) := by
  unfold poll_is_error; infer_instance

/-! ## The machine the inline functions run on -/

/-- An object address. -/
abbrev Ptr := Nat

/-- A code address: the value of a function pointer. -/
abbrev FnPtr := Nat

/-- Modelled from the spec: `struct hw_module_methods_t` is declared in
`hardware/hardware.h`, which is not among the sources; the spec's design notes
describe these records as a C-ABI struct of function pointers. Only the member
the header calls through is kept: `open(module, name, device)`. -/
structure hw_module_methods_t where
  «open» : FnPtr
  deriving DecidableEq, Repr

/-- Modelled from the spec: `struct hw_module_t` is declared in
`hardware/hardware.h`, which is not among the sources. Only the member the
header reads is kept: the pointer `methods`. -/
structure hw_module_t where
  methods : Ptr
  deriving DecidableEq, Repr

/-- Modelled from the spec: `struct hw_device_t` is declared in
`hardware/hardware.h`, which is not among the sources. Only the member the
header calls through is kept: `close(device)`. -/
structure hw_device_t where
  close : FnPtr
  deriving DecidableEq, Repr

/-- The record `struct gestures_module_t`. -/
structure gestures_module_t where
  common : hw_module_t
  get_gestures_list : FnPtr
  deriving DecidableEq, Repr

/-- The record `struct gesture_t` (the nine reserved pointers are left out). -/
structure gesture_t where
  name : String
  handle : Int
  type : Int
  sensorType : Int
  deriving DecidableEq, Repr

/-- The record `struct gestures_control_device_t`: the common header followed
by the function pointers of the control device. -/
structure gestures_control_device_t where
  common : hw_device_t
  open_data_source : FnPtr
  close_data_source : FnPtr
  activate : FnPtr
  set_sensitivity : FnPtr
  wake : FnPtr
  deriving DecidableEq, Repr

/-- The record `struct gestures_data_device_t`: the common header followed by
the function pointers of the data device. -/
structure gestures_data_device_t where
  common : hw_device_t
  data_open : FnPtr
  data_close : FnPtr
  poll : FnPtr
  deriving DecidableEq, Repr

/-- Offset of the member `common`: it is the first member of both device
records, so `&device->common` is the address of the device itself. -/
def offsetof_common : Nat := 0

/-- An argument of an indirect call: an object address or a string literal
(given by its characters). -/
inductive Arg where
  | ptr (p : Ptr)
  | str (s : String)
  deriving DecidableEq, Repr

/-- An indirect call: the code address called and the arguments passed. -/
structure Call where
  fn : FnPtr
  args : List Arg
  deriving DecidableEq, Repr

/-- The objects a pointer of each type designates; `none` where the pointer is
not valid for that type. -/
structure Memory where
  module : Ptr → Option hw_module_t
  methods : Ptr → Option hw_module_methods_t
  control : Ptr → Option gestures_control_device_t
  data : Ptr → Option gestures_data_device_t

/-- Machine state: the object memory and the rest of the world, of type `σ`. -/
structure State (σ : Type) where
  mem : Memory
  ext : σ

/-- The code behind the function pointers: what a call returns and how it
changes the state. -/
abbrev Code (σ : Type) := Call → State σ → Int × State σ

/-- What running a function gives: its return value, the final state and the
indirect calls it made, in order. -/
structure Outcome (σ : Type) where
  ret : Int
  state : State σ
  calls : List Call

/-- Perform one indirect call and return its result. -/
def invoke {σ : Type} (code : Code σ) (c : Call) (s : State σ) : Outcome σ :=
  ⟨(code c s).1, (code c s).2, [c]⟩

/-! ## The inline convenience functions -/

/-- The function
`return module->methods->open(module, GESTURE_HARDWARE_CONTROL, (struct hw_device_t**)device);`
with `none` when `module` or `module->methods` is not a valid pointer. -/
def gestures_control_open {σ : Type} (code : Code σ) (module device : Ptr)
    (s : State σ) : Option (Outcome σ) :=
  match s.mem.module module with
  | none => none
  | some m =>
    match s.mem.methods m.methods with
    | none => none
    | some ms =>
      some (invoke code
        ⟨ms.open, [.ptr module, .str GESTURE_HARDWARE_CONTROL, .ptr device]⟩ s)

/-- The function `return device->common.close(&device->common);` on a control
device, with `none` when `device` is not a valid pointer. -/
def gestures_control_close {σ : Type} (code : Code σ) (device : Ptr)
    (s : State σ) : Option (Outcome σ) :=
  match s.mem.control device with
  | none => none
  | some d =>
    some (invoke code ⟨d.common.close, [.ptr (device + offsetof_common)]⟩ s)

/-- The function
`return module->methods->open(module, GESTURE_HARDWARE_DATA, (struct hw_device_t**)device);`
with `none` when `module` or `module->methods` is not a valid pointer. -/
def gestures_data_open {σ : Type} (code : Code σ) (module device : Ptr)
    (s : State σ) : Option (Outcome σ) :=
  match s.mem.module module with
  | none => none
  | some m =>
    match s.mem.methods m.methods with
    | none => none
    | some ms =>
      some (invoke code
        ⟨ms.open, [.ptr module, .str GESTURE_HARDWARE_DATA, .ptr device]⟩ s)

/-- The function `return device->common.close(&device->common);` on a data
device, with `none` when `device` is not a valid pointer. -/
def gestures_data_close {σ : Type} (code : Code σ) (device : Ptr)
    (s : State σ) : Option (Outcome σ) :=
  match s.mem.data device with
  | none => none
  | some d =>
    some (invoke code ⟨d.common.close, [.ptr (device + offsetof_common)]⟩ s)

/-! ## Driver-side behaviour described by the specification -/

/-- Modelled from the spec: the invalid-argument condition as the errno `EINVAL`
(`errno.h` is not among the sources; `activate` returns a "negative errno code"). -/
def EINVAL : Nat := 22

/-- Modelled from the spec: the not-found condition as the errno `ENOENT`
(`errno.h` is not among the sources). -/
def ENOENT : Nat := 2

/-- Modelled from the spec: one entry of the ActivationSet, "mapping from handle →
{enabled, sensitivity}". -/
structure Activation where
  enabled : Bool
  sensitivity : Int
  deriving DecidableEq, Repr

/-- Modelled from the spec: the ActivationSet, a mapping from handle to its
enabled flag and sensitivity. -/
abbrev ActivationSet := Int → Activation

/-- Modelled from the spec: the state of a Control Device, its module's Gesture
Catalog and its ActivationSet. The functions behind `activate` and
`set_sensitivity` are driver code that is not among the sources. -/
structure ControlDevice where
  catalog : List gesture_t
  active : ActivationSet

/-- Modelled from the spec: whether a handle is the handle of a descriptor of the
Gesture Catalog. -/
def catalog_has (catalog : List gesture_t) (handle : Int) : Bool :=
  catalog.any (fun g => g.handle == handle)

/-- Modelled from the spec: `activate(handle, enabled)` of the Control Device
(driver code, not among the sources): "validates handle against the Gesture
Catalog; fails with an invalid-argument condition if unknown. [...] Side effect:
updates ActivationSet". Returns "0 on success, negative errno code otherwise". -/
def activate (dev : ControlDevice) (handle enabled : Int) : Int × ControlDevice :=
  if catalog_has dev.catalog handle then
    (0, { dev with active := fun h =>
      if h = handle then { dev.active h with enabled := enabled != 0 }
      else dev.active h })
  else
    (-(EINVAL : Int), dev)

/-- Modelled from the spec: `set_sensitivity(handle, value)` of the Control Device
(driver code, not among the sources): "fails with invalid-argument if handle
unknown; otherwise updates ActivationSet's per-handle sensitivity". -/
def set_sensitivity (dev : ControlDevice) (handle sens : Int) : Int × ControlDevice :=
  if catalog_has dev.catalog handle then
    (0, { dev with active := fun h =>
      if h = handle then { dev.active h with sensitivity := sens }
      else dev.active h })
  else
    (-(EINVAL : Int), dev)

/-- The device a module can open, named by the two device names of the header. -/
inductive DeviceKind where
  | control
  | data
  deriving DecidableEq, Repr

/-- Modelled from the spec: the open method of the Module Entry Point (driver
code, not among the sources): "generic open-by-name semantics that route to
either the Control or Data device factory based on a requested device name.
Fails with a not-found condition for unrecognized device names." A factory gives
a result code, the device it produced if any, and the new state. -/
def module_open {σ δ : Type} (control_factory data_factory : σ → Int × Option δ × σ)
    (name : String) (s : σ) : Int × Option (DeviceKind × δ) × σ :=
  if name = GESTURE_HARDWARE_CONTROL then
    ((control_factory s).1, (control_factory s).2.1.map (fun d => (.control, d)),
      (control_factory s).2.2)
  else if name = GESTURE_HARDWARE_DATA then
    ((data_factory s).1, (data_factory s).2.1.map (fun d => (.data, d)),
      (data_factory s).2.2)
  else
    (-(ENOENT : Int), none, s)

/-! ## Concrete machines used to instantiate the theorems -/

/-- A memory holding one module at address 100 (methods table at 200, its open
method at code address 7), a control device at 300 and a data device at 400. -/
def demo_memory : Memory where
  module := fun p => if p = 100 then some ⟨200⟩ else none
  methods := fun p => if p = 200 then some ⟨7⟩ else none
  control := fun p => if p = 300 then some ⟨⟨8⟩, 1, 2, 3, 4, 5⟩ else none
  data := fun p => if p = 400 then some ⟨⟨9⟩, 1, 2, 3⟩ else none

/-- Code that counts the calls made in the state and returns the code address
called, negated. -/
def demo_code : Code Nat :=
  fun c s => (-(c.fn : Int), { s with ext := s.ext + 1 })

/-- The initial state of the demonstration machine. -/
def demo_state : State Nat := ⟨demo_memory, 0⟩

/-- A memory holding nothing but a control device at address 300, its close
method at code address 8. -/
def control_only_memory : Memory where
  module := fun _ => none
  methods := fun _ => none
  control := fun p => if p = 300 then some ⟨⟨8⟩, 1, 2, 3, 4, 5⟩ else none
  data := fun _ => none

/-- A memory holding nothing but a data device at address 400, its close method
at code address 9. -/
def data_only_memory : Memory where
  module := fun _ => none
  methods := fun _ => none
  control := fun _ => none
  data := fun p => if p = 400 then some ⟨⟨9⟩, 1, 2, 3⟩ else none

/-- A control device whose catalog holds the single-tap gesture under handle 2,
with every handle disabled. -/
def demo_device : ControlDevice where
  catalog := [⟨"single tap", 2, GESTURE_TYPE_SINGLETAP, 0⟩]
  active := fun _ => ⟨false, 0⟩

/-- A device factory that always succeeds, producing device number `n`. -/
def demo_factory (n : Nat) : Nat → Int × Option Nat × Nat :=
  fun s => (0, some n, s + 1)

/-! ## Shared lemmas -/

theorem handle_count_eq : GESTURE_HANDLE_COUNT = 256 := by decide

theorem in_handle_range_iff (h : Int) : in_handle_range h ↔ 0 ≤ h ∧ h ≤ 255 := by
  unfold in_handle_range GESTURE_HANDLE_BASE
  rw [handle_count_eq]
  omega

theorem poll_woken_eq : POLL_WOKEN = 2147483647 := by decide

theorem catalog_has_eq_false (catalog : List gesture_t) (handle : Int)
    (h : ∀ g ∈ catalog, g.handle ≠ handle) : catalog_has catalog handle = false := by
  unfold catalog_has
  rw [List.any_eq_false]
  intro g hg
  simpa using h g hg

/-! ## The claims -/

/-- C1: the declared leaf fields of `gestures_data_t`, in declaration order, are a
32-bit signed `gesture`, three floats `v`, an 8-bit signed `status`, three
reserved bytes, a 64-bit signed `time` and a 32-bit unsigned `reserved`, of
declared widths 4, 12, 1, 3, 8 and 4 bytes; the second to fourth of them are
exactly the fields of the nested `gestures_vec_t` member `gesturedata`. -/
theorem gestures_data_t_fields :
    gestures_data_t.fields "" 1 =
        [⟨"gesture", .int, 1⟩, ⟨"v", .float, 3⟩, ⟨"status", .int8_t, 1⟩,
         ⟨"reserved", .uint8_t, 3⟩, ⟨"time", .int64_t, 1⟩, ⟨"reserved", .uint32_t, 1⟩]
    ∧ (gestures_data_t.fields "" 1).map Field.width = [4, 12, 1, 3, 8, 4]
    ∧ (Scalar.int.signedInt = true ∧ 8 * Scalar.int.size = 32)
    ∧ (Scalar.float.size = 4)
    ∧ (Scalar.int8_t.signedInt = true ∧ 8 * Scalar.int8_t.size = 8)
    ∧ (Scalar.uint8_t.unsignedInt = true ∧ Scalar.uint8_t.size = 1)
    ∧ (Scalar.int64_t.signedInt = true ∧ 8 * Scalar.int64_t.size = 64)
    ∧ (Scalar.uint32_t.unsignedInt = true ∧ 8 * Scalar.uint32_t.size = 32)
    ∧ gestures_data_t.members =
        .cons "gesture" (.scalar .int) (.cons "gesturedata" gestures_vec_t
          (.cons "time" (.scalar .int64_t) (.cons "reserved" (.scalar .uint32_t) .nil)))
    ∧ gestures_vec_t.fields "gesturedata" 1 =
        ((gestures_data_t.fields "" 1).drop 1).take 3 := by
  refine ⟨by decide, by decide, by decide, by decide, by decide, by decide, by decide,
    by decide, rfl, by decide⟩

/-- C2: the gesture type constants are double-tap 1, single-tap 2, off-glass 13 and
the IC marker 16, and the four values are pairwise distinct. -/
theorem gesture_type_constants :
    GESTURE_TYPE_DOUBLETAP = 1 ∧ GESTURE_TYPE_SINGLETAP = 2
    ∧ GESTURE_TYPE_OFFGLASS = 13 ∧ GESTURE_IC_TYPE_OFFGLASS = 16
    ∧ [GESTURE_TYPE_DOUBLETAP, GESTURE_TYPE_SINGLETAP, GESTURE_TYPE_OFFGLASS,
        GESTURE_IC_TYPE_OFFGLASS].Pairwise (fun a b => a ≠ b) := by
  refine ⟨rfl, rfl, rfl, rfl, by decide⟩

/-- C3: on a valid module, `gestures_control_open` makes exactly the call
`module->methods->open(module, "control", device)` and `gestures_data_open` the
call `module->methods->open(module, "data", device)`, each returning the
method's result and leaving the state as the method left it; the two names
differ, and for any two device factories there is code for the open method
under which the control request runs the first and the data request the
second. -/
theorem gestures_open_calls_module_open {σ : Type} (code : Code σ)
    (module device : Ptr) (s : State σ) (m : hw_module_t) (ms : hw_module_methods_t)
    (hm : s.mem.module module = some m) (hms : s.mem.methods m.methods = some ms) :
    gestures_control_open code module device s =
        some ⟨(code ⟨ms.open, [.ptr module, .str "control", .ptr device]⟩ s).1,
              (code ⟨ms.open, [.ptr module, .str "control", .ptr device]⟩ s).2,
              [⟨ms.open, [.ptr module, .str "control", .ptr device]⟩]⟩
    ∧ gestures_data_open code module device s =
        some ⟨(code ⟨ms.open, [.ptr module, .str "data", .ptr device]⟩ s).1,
              (code ⟨ms.open, [.ptr module, .str "data", .ptr device]⟩ s).2,
              [⟨ms.open, [.ptr module, .str "data", .ptr device]⟩]⟩
    ∧ GESTURE_HARDWARE_CONTROL ≠ GESTURE_HARDWARE_DATA
    ∧ ∀ control_factory data_factory : State σ → Int × State σ,
        ∃ routing : Code σ,
          (gestures_control_open routing module device s).map
              (fun o => (o.ret, o.state)) = some (control_factory s)
          ∧ (gestures_data_open routing module device s).map
              (fun o => (o.ret, o.state)) = some (data_factory s) := by
  refine ⟨?_, ?_, by decide, ?_⟩
  · simp [gestures_control_open, hm, hms, invoke, GESTURE_HARDWARE_CONTROL]
  · simp [gestures_data_open, hm, hms, invoke, GESTURE_HARDWARE_DATA]
  · intro control_factory data_factory
    refine ⟨fun c st =>
      if c.args.contains (.str GESTURE_HARDWARE_CONTROL) then control_factory st
      else data_factory st, ?_, ?_⟩
    · simp [gestures_control_open, hm, hms, invoke]
    · simp [gestures_data_open, hm, hms, invoke, GESTURE_HARDWARE_CONTROL,
        GESTURE_HARDWARE_DATA]

/-- Witness of C3 on the demonstration machine: module 100, device slot 300. -/
theorem gestures_open_calls_module_open_witness :
    demo_state.mem.module 100 = some ⟨200⟩
    ∧ demo_state.mem.methods 200 = some ⟨7⟩
    ∧ (gestures_control_open demo_code 100 300 demo_state).map
        (fun o => (o.ret, o.state.ext, o.calls))
        = some (-7, 1, [⟨7, [.ptr 100, .str "control", .ptr 300]⟩])
    ∧ (gestures_data_open demo_code 100 300 demo_state).map
        (fun o => (o.ret, o.state.ext, o.calls))
        = some (-7, 1, [⟨7, [.ptr 100, .str "data", .ptr 300]⟩]) := by
  have h := gestures_open_calls_module_open demo_code 100 300 demo_state ⟨200⟩ ⟨7⟩ rfl rfl
  refine ⟨rfl, rfl, ?_, ?_⟩
  · rw [h.1]; rfl
  · rw [h.2.1]; rfl

/-- C4: the return values `poll` documents for an event, a wake and an error are
pairwise disjoint: the wake value 0x7FFFFFFF is the largest 32-bit signed
integer, lies outside the handle range 0 to 255 and is not negative, no handle of
the range is negative, and two well-formed outcomes with the same return value
are the same outcome. -/
theorem poll_outcomes_disjoint :
    POLL_WOKEN = 2 ^ 31 - 1
    ∧ (∀ r : Int, in_handle_range r ↔ 0 ≤ r ∧ r ≤ 255)
    ∧ ¬ in_handle_range POLL_WOKEN
    ∧ ¬ POLL_WOKEN < 0
    ∧ (∀ r : Int, in_handle_range r → ¬ r < 0)
    ∧ (∀ r : Int, ¬ (poll_is_event r ∧ poll_is_woken r)
        ∧ ¬ (poll_is_woken r ∧ poll_is_error r)
        ∧ ¬ (poll_is_event r ∧ poll_is_error r))
    ∧ (∀ o₁ o₂ : PollOutcome, o₁.wellFormed → o₂.wellFormed →
        poll_return o₁ = poll_return o₂ → o₁ = o₂) := by
  refine ⟨by decide, in_handle_range_iff, by decide, by decide, ?_, ?_, ?_⟩
  · intro r hr
    rw [in_handle_range_iff] at hr
    omega
  · intro r
    unfold poll_is_event poll_is_woken poll_is_error
    rw [in_handle_range_iff, poll_woken_eq]
    omega
  · intro o₁ o₂ h₁ h₂ h
    cases o₁ with
    | event a =>
      cases o₂ with
      | event b => exact congrArg PollOutcome.event h
      | woken =>
        simp only [PollOutcome.wellFormed, in_handle_range_iff] at h₁
        simp only [poll_return, poll_woken_eq] at h
        omega
      | error e =>
        simp only [PollOutcome.wellFormed, in_handle_range_iff] at h₁ h₂
        simp only [poll_return] at h
        omega
    | woken =>
      cases o₂ with
      | event b =>
        simp only [PollOutcome.wellFormed, in_handle_range_iff] at h₂
        simp only [poll_return, poll_woken_eq] at h
        omega
      | woken => rfl
      | error e =>
        simp only [poll_return, poll_woken_eq] at h
        omega
    | error e =>
      cases o₂ with
      | event b =>
        simp only [PollOutcome.wellFormed, in_handle_range_iff] at h₁ h₂
        simp only [poll_return] at h
        omega
      | woken =>
        simp only [poll_return, poll_woken_eq] at h
        omega
      | error f =>
        simp only [poll_return] at h
        exact congrArg PollOutcome.error (by omega)

/-- C6: the handle space is 8 bits wide. `GESTURE_HANDLE_COUNT` is
`2 ^ GESTURE_HANDLE_BITS = 256`; the handle range starting at
`GESTURE_HANDLE_BASE` is exactly the integers 0 to 255, that is the 256 values
`GESTURE_HANDLE_BASE + n` with `n < 2 ^ GESTURE_HANDLE_BITS`; and every integer
of the range, the base 0 included, meets the requirement the header puts on
`gesture_t.handle`, to be 8 bits, which no integer outside the range does. -/
theorem handle_space :
    GESTURE_HANDLE_COUNT = 2 ^ GESTURE_HANDLE_BITS
    ∧ GESTURE_HANDLE_COUNT = 256
    ∧ GESTURE_HANDLE_BASE = 0
    ∧ (∀ h : Int, in_handle_range h ↔ 0 ≤ h ∧ h ≤ 255)
    ∧ (∀ h : Int, in_handle_range h ↔
        ∃ n : Nat, n < 2 ^ GESTURE_HANDLE_BITS ∧ h = GESTURE_HANDLE_BASE + n)
    ∧ (∀ h : Int, in_handle_range h ↔ handle_fits h)
    ∧ (in_handle_range GESTURE_HANDLE_BASE ∧ handle_fits GESTURE_HANDLE_BASE)
    ∧ (in_handle_range 255 ∧ handle_fits 255)
    ∧ (¬ in_handle_range (-1) ∧ ¬ in_handle_range 256) := by
  have hfits : ∀ h : Int, handle_fits h ↔ 0 ≤ h ∧ h ≤ 255 := by
    intro h
    unfold handle_fits GESTURE_HANDLE_BITS
    omega
  refine ⟨by decide, by decide, rfl, in_handle_range_iff, ?_, ?_, by decide, by decide,
    by decide⟩
  · intro h
    rw [in_handle_range_iff]
    unfold GESTURE_HANDLE_BITS GESTURE_HANDLE_BASE
    constructor
    · intro hr
      exact ⟨h.toNat, by omega, by omega⟩
    · rintro ⟨n, hn, rfl⟩
      omega
  · intro h
    rw [in_handle_range_iff, hfits]

/-- C7: for a handle that is the handle of no descriptor of the gesture catalog,
`activate` and `set_sensitivity` return the negative code `-EINVAL` and leave the
device, and with it the enabled flag and sensitivity of every handle,
unchanged. -/
theorem unknown_handle_rejected (dev : ControlDevice) (handle enabled sens : Int)
    (h : ∀ g ∈ dev.catalog, g.handle ≠ handle) :
    (activate dev handle enabled).1 = -(EINVAL : Int)
    ∧ (activate dev handle enabled).1 < 0
    ∧ (activate dev handle enabled).2 = dev
    ∧ (∀ k : Int, (activate dev handle enabled).2.active k = dev.active k)
    ∧ (set_sensitivity dev handle sens).1 = -(EINVAL : Int)
    ∧ (set_sensitivity dev handle sens).1 < 0
    ∧ (set_sensitivity dev handle sens).2 = dev
    ∧ (∀ k : Int, (set_sensitivity dev handle sens).2.active k = dev.active k) := by
  have hc := catalog_has_eq_false dev.catalog handle h
  have ha : activate dev handle enabled = (-(EINVAL : Int), dev) := by
    simp [activate, hc]
  have hs : set_sensitivity dev handle sens = (-(EINVAL : Int), dev) := by
    simp [set_sensitivity, hc]
  rw [ha, hs]
  have hneg : -(EINVAL : Int) < 0 := by decide
  exact ⟨rfl, hneg, rfl, fun _ => rfl, rfl, hneg, rfl, fun _ => rfl⟩

/-- Witness of C7: handle 5 is not in the catalog of the demonstration device,
whose only handle is 2. -/
theorem unknown_handle_rejected_witness :
    (∀ g ∈ demo_device.catalog, g.handle ≠ 5)
    ∧ (activate demo_device 5 1).1 = -22
    ∧ ((activate demo_device 5 1).2.active 5).enabled = false
    ∧ (set_sensitivity demo_device 5 9).1 = -22
    ∧ ((set_sensitivity demo_device 5 9).2.active 5).sensitivity = 0 := by
  have hcat : ∀ g ∈ demo_device.catalog, g.handle ≠ 5 := by
    intro g hg
    simp [demo_device] at hg
    subst hg
    decide
  have h := unknown_handle_rejected demo_device 5 1 9 hcat
  refine ⟨hcat, h.1, ?_, h.2.2.2.2.1, ?_⟩
  · rw [h.2.2.2.1]; rfl
  · rw [h.2.2.2.2.2.2.2]; rfl

/-- C8: opening with a device name other than "control" and "data" returns the
negative not-found code `-ENOENT`, produces no device and leaves the state as it
was, whatever the two device factories are. -/
theorem module_open_unknown_name {σ δ : Type}
    (control_factory data_factory : σ → Int × Option δ × σ) (name : String) (s : σ)
    (hc : name ≠ "control") (hd : name ≠ "data") :
    module_open control_factory data_factory name s = (-(ENOENT : Int), none, s)
    ∧ (module_open control_factory data_factory name s).1 < 0
    ∧ (module_open control_factory data_factory name s).2.1 = none := by
  have h : module_open control_factory data_factory name s = (-(ENOENT : Int), none, s) := by
    simp [module_open, GESTURE_HARDWARE_CONTROL, GESTURE_HARDWARE_DATA, hc, hd]
  rw [h]
  have hneg : -(ENOENT : Int) < 0 := by decide
  exact ⟨rfl, hneg, rfl⟩

/-- Witness of C8: the device name "gestures" is neither "control" nor "data". -/
theorem module_open_unknown_name_witness :
    ("gestures" ≠ "control" ∧ "gestures" ≠ "data")
    ∧ module_open (demo_factory 1) (demo_factory 2) "gestures" 0 = (-2, none, 0) :=
  ⟨⟨by decide, by decide⟩,
    (module_open_unknown_name (demo_factory 1) (demo_factory 2) "gestures" 0
      (by decide) (by decide)).1⟩

/-- C9: for every control device `gestures_control_close`, and for every data
device `gestures_data_close`, makes exactly one indirect call, to the `close`
pointer stored in that device's own `common` header with the address of that
header as its only argument, and returns that call's result and final state
unchanged. Each half holds for its own device alone, whatever else the memory
holds. -/
theorem gestures_close_calls_common_close {σ : Type} (code : Code σ) (s : State σ)
    (device : Ptr) :
    (∀ c : gestures_control_device_t, s.mem.control device = some c →
      gestures_control_close code device s =
        some ⟨(code ⟨c.common.close, [.ptr device]⟩ s).1,
              (code ⟨c.common.close, [.ptr device]⟩ s).2,
              [⟨c.common.close, [.ptr device]⟩]⟩)
    ∧ (∀ d : gestures_data_device_t, s.mem.data device = some d →
      gestures_data_close code device s =
        some ⟨(code ⟨d.common.close, [.ptr device]⟩ s).1,
              (code ⟨d.common.close, [.ptr device]⟩ s).2,
              [⟨d.common.close, [.ptr device]⟩]⟩) := by
  constructor
  · intro c hc
    simp [gestures_control_close, hc, invoke, offsetof_common]
  · intro d hd
    simp [gestures_data_close, hd, invoke, offsetof_common]

/-- Witness of C9: the control device 300 (close at code address 8) in a memory
with no data device, and the data device 400 (close at code address 9) in a
memory with no control device. -/
theorem gestures_close_calls_common_close_witness :
    (control_only_memory.control 300 = some ⟨⟨8⟩, 1, 2, 3, 4, 5⟩
      ∧ control_only_memory.data 300 = none)
    ∧ (gestures_control_close demo_code 300 ⟨control_only_memory, 0⟩).map
        (fun o => (o.ret, o.state.ext, o.calls)) = some (-8, 1, [⟨8, [.ptr 300]⟩])
    ∧ (data_only_memory.data 400 = some ⟨⟨9⟩, 1, 2, 3⟩
      ∧ data_only_memory.control 400 = none)
    ∧ (gestures_data_close demo_code 400 ⟨data_only_memory, 0⟩).map
        (fun o => (o.ret, o.state.ext, o.calls)) = some (-9, 1, [⟨9, [.ptr 400]⟩]) := by
  have hc := (gestures_close_calls_common_close demo_code ⟨control_only_memory, 0⟩ 300).1
    ⟨⟨8⟩, 1, 2, 3, 4, 5⟩ rfl
  have hd := (gestures_close_calls_common_close demo_code ⟨data_only_memory, 0⟩ 400).2
    ⟨⟨9⟩, 1, 2, 3⟩ rfl
  refine ⟨⟨rfl, rfl⟩, ?_, ⟨rfl, rfl⟩, ?_⟩
  · rw [hc]; rfl
  · rw [hd]; rfl

/-- C10: `gestures_vec_t` has no padding: its declared fields sum to 16 bytes, a
multiple of its alignment 4, and its size is 16. `gestures_data_t` has: its
declared fields sum to 32 bytes, but under natural alignment `time` (aligned to
8) is placed at offset 24 instead of 20, `reserved` at 32, and the record is 40
bytes, 8 of which belong to no declared field. -/
theorem record_padding :
    gestures_vec_t.declaredWidth = 16
    ∧ gestures_vec_t.alignof = 4
    ∧ gestures_vec_t.declaredWidth % gestures_vec_t.alignof = 0
    ∧ gestures_vec_t.members.offsets 0 = [("v", 0), ("status", 12), ("reserved", 13)]
    ∧ gestures_vec_t.sizeof = 16
    ∧ gestures_vec_t.paddingBytes = 0
    ∧ gestures_data_t.declaredWidth = 32
    ∧ (CType.scalar .int64_t).alignof = 8
    ∧ (CType.scalar .int).sizeof + gestures_vec_t.sizeof = 20
    ∧ gestures_data_t.members.offsets 0 =
        [("gesture", 0), ("gesturedata", 4), ("time", 24), ("reserved", 32)]
    ∧ gestures_data_t.sizeof = 40
    ∧ gestures_data_t.paddingBytes = 8 := by
  refine ⟨by decide, by decide, by decide, by decide, by decide, by decide, by decide,
    by decide, by decide, by decide, by decide, by decide⟩

end Gestures
